import Mathlib

/-!
Shallow embedding of `src/main.py` (Literise AI Service, FastAPI backend for
four LLM-backed mini-games) and verification of the frozen claims about it.

Python strings are modelled as `List Char`; the in-memory `GAME_CACHE` dict is
modelled as an association list with first-match lookup; every endpoint is a
pure function from the cache (and the provider's response, supplied as a
parameter) to a result/HTTP-error pair together with the updated cache.
Floating-point scores are idealised as rationals; `round` is Python's
round-half-to-even on exact values.
-/

/-- A Python string, as its list of characters. -/
abbrev Str := List Char

/-- Python `str.lower()` (per-character lowering; texts here are ASCII). -/
def pyLower (s : Str) : Str := s.map Char.toLower

/-- Drop the trailing run of characters satisfying `p`. -/
def dropTrailingWhile (p : Char → Bool) (s : Str) : Str :=
  (s.reverse.dropWhile p).reverse

/-- Python `str.strip()`: remove leading and trailing whitespace. -/
def pyStrip (s : Str) : Str :=
  dropTrailingWhile Char.isWhitespace (s.dropWhile Char.isWhitespace)

/-- Python `str.rstrip(cs)`: remove the trailing run of characters in `cs`. -/
def pyRstrip (cs : List Char) (s : Str) : Str :=
  dropTrailingWhile (fun c => cs.contains c) s

/-- Python `str.capitalize()`: first character upper-cased, rest lower-cased. -/
def pyCapitalize : Str → Str
  | [] => []
  | c :: t => c.toUpper :: pyLower t

/-- Python `needle in hay` on strings: substring containment
(the empty needle is contained in every string). -/
def strContains : Str → Str → Bool
  | [], needle => needle.isEmpty
  | c :: t, needle => needle.isPrefixOf (c :: t) || strContains t needle

/-- Case-insensitive literal match of `w` at the start of `s`
(the compiled meaning of an `re.escape`d pattern with `re.IGNORECASE`). -/
def ciStartsWith (w s : Str) : Bool := (pyLower w).isPrefixOf (pyLower s)

/-- Does `w` occur case-insensitively (as a literal) anywhere in `s`? -/
def occursCI (w : Str) : Str → Bool
  | [] => ciStartsWith w []
  | c :: t => ciStartsWith w (c :: t) || occursCI w t

/-- `re.subn(re.escape(w), ph, s, count=1, flags=re.IGNORECASE)`: replace the
first (leftmost) case-insensitive literal occurrence of `w` in `s` by `ph`,
returning the new string and the number of replacements made (0 or 1).
`re.escape` guarantees the pattern matches the keyword as literal text, so the
model searches for the literal keyword, never interpreting pattern syntax. -/
def reSubnOnce (w ph : Str) : Str → Str × Nat
  | [] => if ciStartsWith w [] then (ph, 1) else ([], 0)
  | c :: t =>
    if ciStartsWith w (c :: t) then (ph ++ (c :: t).drop w.length, 1)
    else
      let r := reSubnOnce w ph t
      (c :: r.1, r.2)

/-- Greedy left-to-right scan counting non-overlapping occurrences of `sub`;
`fuel` bounds the recursion depth (each step consumes at least one character
of the scanned string, so `fuel = length` is always enough). -/
def countOccsAux (sub : Str) : Nat → Str → Nat
  | _, [] => if sub.isEmpty then 1 else 0
  | 0, _ :: _ => 0
  | fuel + 1, c :: t =>
    if sub.isEmpty then 1 + countOccsAux sub fuel t
    else if sub.isPrefixOf (c :: t) then
      1 + countOccsAux sub fuel ((c :: t).drop sub.length)
    else
      countOccsAux sub fuel t

/-- Python `str.count(sub)`: number of non-overlapping occurrences of `sub`,
scanning greedily from the left. -/
def countOccs (sub s : Str) : Nat := countOccsAux sub s.length s

/-- Python `round()` on an exact rational value: round to the nearest
integer, ties to the even integer (banker's rounding). -/
def pyRound (q : ℚ) : ℤ :=
  let f := q.floor
  let r := q - (f : ℚ)
  if r < 1 / 2 then f
  else if 1 / 2 < r then f + 1
  else if f % 2 = 0 then f else f + 1

/-- One `GAME_CACHE` entry. Each Python cache value is a dict whose keys
identify the game kind:
reading missions store `title`/`questions`/`answers`, hoax quizzes store
`is_hoax`/`explanation`/`source_url`, library games store
`full_text`/`correct_answers`, grammar games store
`correct_sentences`/`original_sentences`. -/
inductive Session where
  | reading (title : Str) (questions : List Str) (answers : List Str)
  | hoax (is_hoax : Bool) (explanation : Str) (source_url : Str)
  | library (full_text : Str) (correct_answers : List Str)
  | grammar (correct_sentences : List Str) (original_sentences : List Str)
deriving DecidableEq

/-- The global `GAME_CACHE` dict, modelled as an association list with
first-match lookup (keys are the uuid session ids, unique in practice). -/
abbrev Cache := List (String × Session)

/-- Dict lookup `GAME_CACHE[k]` / membership test `k in GAME_CACHE`. -/
def cacheGet (c : Cache) (k : String) : Option Session :=
  (c.find? (fun p => p.1 == k)).map (fun p => p.2)

/-- Dict deletion `del GAME_CACHE[k]`. -/
def cacheDel (c : Cache) (k : String) : Cache :=
  c.filter (fun p => p.1 != k)

/-- Dict insertion `GAME_CACHE[k] = v` (ids are fresh uuids, so shadowing
the rest of the list is equivalent to dict assignment under lookup). -/
def cacheInsert (c : Cache) (k : String) (v : Session) : Cache :=
  (k, v) :: c

/-- A FastAPI `HTTPException`, as its status code and detail string. -/
structure Err where
  status : Nat
  detail : String
deriving DecidableEq

/-- A Python exception escaping the AI call: either an `HTTPException`
(raised by `call_gemini_api`) or some other exception (e.g. a
`json.loads` failure), carrying its `str(e)` rendering. -/
inductive PyExn where
  | http (e : Err)
  | other (msg : String)
deriving DecidableEq

/-- Python `str(e)`: for an `HTTPException` starlette renders
`f"\x7bstatus_code\x7d: \x7bdetail\x7d"`; for other exceptions the message. -/
def exnStr : PyExn → String
  | .http e => toString e.status ++ ": " ++ e.detail
  | .other m => m

/-- Outcome of one provider round-trip as seen after `call_gemini_api`
plus the endpoint's `json.loads` of the content, for an endpoint whose
parsed payload has type `α`:
a non-2xx HTTP status with the provider's error message, a blocked prompt
(no candidates), content that fails structured parsing, or parsed content. -/
inductive AIResult (α : Type) where
  | httpError (status : Nat) (message : String)
  | blocked (reason : String) (ratings : String)
  | malformed (msg : String)
  | parsed (a : α)

/-- `call_gemini_api` combined with the endpoint-side `json.loads`.
On a non-2xx response it raises an `HTTPException`: status 503 is mapped to
the dedicated Overloaded message, any other status to a generic Gemini error.
A blocked prompt raises `HTTPException(500, ...)` inside the `try`, which the
`except Exception` clause of `call_gemini_api` itself catches and re-wraps as
`HTTPException(500, "Error internal Python: " + str(e))`. A parse failure is
a plain exception surfaced to the endpoint. -/
def runAI {α : Type} : AIResult α → Except PyExn α
  | .httpError s m =>
    if s = 503 then
      .error (.http ⟨503,
        "Server AI sedang sibuk (Overloaded). Coba lagi dalam beberapa saat. Detail: " ++ m⟩)
    else
      .error (.http ⟨s, "Error dari Gemini: " ++ m⟩)
  | .blocked r rat =>
    .error (.http ⟨500, "Error internal Python: 500: " ++
      "Error: Konten diblokir oleh Gemini. Alasan: " ++ r ++ ". Detail: " ++ rat⟩)
  | .malformed m => .error (.other m)
  | .parsed a => .ok a

/-- Parsed structured payload of the reading-mission generation call. -/
structure RMPayload where
  reading_text : Str
  quiz_questions : List Str
  correct_answers : List Str

/-- Parsed structured payload of the AI judge call grading a reading
mission: per-question records plus an aggregate score, passed through. -/
structure JudgeItem where
  question : Str
  user_answer : Str
  score : ℚ
  feedback : Str
deriving DecidableEq

/-- Parsed structured payload of the reading-mission grading call. -/
structure JudgePayload where
  results : List JudgeItem
  total_score : ℚ
deriving DecidableEq

/-- Parsed structured payload of the hoax-quiz generation call
(`source_url` is not in the required schema keys, hence optional). -/
structure HoaxPayload where
  news_snippet : Str
  is_hoax : Bool
  explanation : Str
  source_url : Option Str

/-- Parsed structured payload of the library generation call. -/
structure LibPayload where
  full_text : Str
  blanks : List Str

/-- Parsed structured payload of the grammar generation call. -/
structure GramPayload where
  sentences_to_fix : List Str
  correct_sentences : List Str

/-- The answer normalization used by exact-match grading:
`x.strip().lower()`. -/
def normAns (s : Str) : Str := pyLower (pyStrip s)

/-- Per-item correctness test of both exact-match graders:
`user.strip().lower() == ideal.strip().lower()`. -/
def isAnswerCorrect (user ideal : Str) : Bool := normAns user == normAns ideal

/-- The `total_score` accumulation loop shared by the two exact-match
graders: starting from 0, add `w` (`score_per_item`) for a correct pair,
0 otherwise. -/
def scoreFold (pairs : List (Str × Str)) (w : ℚ) : ℚ :=
  pairs.foldl (fun acc p => acc + (if isAnswerCorrect p.1 p.2 then w else 0)) 0

/-- Number of (user, ideal) pairs graded correct. -/
def countCorrect (user ideal : List Str) : Nat :=
  (user.zip ideal).countP (fun p => isAnswerCorrect p.1 p.2)

/-- Keyword normalization `blank.strip().lower().rstrip(".,?!")` used when
verifying an AI-proposed keyword against the full text. -/
def cleanBlankForCheck (b : Str) : Str :=
  pyRstrip ".,?!".toList (pyLower (pyStrip b))

/-- Acceptance test of one AI-proposed keyword against the lower-cased full
text: the cleaned keyword is truthy (non-empty) and a substring of the
lower-cased haystack. -/
def acceptBlank (full_text_lower b : Str) : Bool :=
  !(cleanBlankForCheck b).isEmpty && strContains full_text_lower (cleanBlankForCheck b)

/-- The verification loop of `generate_library_full_text`: walk the first 5
proposed keywords in order and append `blank.strip()` for each accepted one;
rejected keywords are only logged. -/
def verifiedBlanks (blanks : List Str) (full_text_lower : Str) : List Str :=
  (blanks.take 5).foldl
    (fun acc b => if acceptBlank full_text_lower b then acc ++ [pyStrip b] else acc) []

/-- The fixed placeholder `"[.....]"` substituted for each keyword. -/
def placeholder : Str := "[.....]".toList

/-- The blanking loop of `get_library_quiz_text`: for each stored keyword in
order, one case-insensitive literal first-occurrence substitution by the
placeholder (`re.subn(re.escape(word), placeholder, text, count=1,
flags=re.IGNORECASE)`); on a successful substitution keep the new text and
bump `blanks_created`, otherwise keep the text and only log. -/
def blankOut (answers : List Str) (ph : Str) (text : Str) : Str × Nat :=
  answers.foldl
    (fun acc word =>
      let tc := reSubnOnce word ph acc.1
      if tc.2 > 0 then (tc.1, acc.2 + 1) else (acc.1, acc.2))
    (text, 0)

/-- Response of `POST /api/game/generate-mission`. The questions are sent as
a list of singleton dicts, modelled by the list of question strings. -/
structure RMGenResp where
  mission_id : String
  title : Str
  reading_text : Str
  quiz_questions : List Str
deriving DecidableEq

/-- Response of `POST /api/game/validate-quiz`. -/
structure RMValidateResp where
  title : Str
  total_score : ℚ
  results : List JudgeItem
deriving DecidableEq

/-- Response of `GET /api/hoax-quiz/generate`. -/
structure HoaxGenResp where
  mission_id : String
  news_snippet : Str
deriving DecidableEq

/-- Response of `POST /api/hoax-quiz/check`. -/
structure HoaxCheckResp where
  is_correct : Bool
  correct_answer : Str
  explanation : Str
  source_url : Str
deriving DecidableEq

/-- Response of `POST /api/library/generate-full-text`. -/
structure LibGenResp where
  game_id : String
  full_text : Str
  title : Str
deriving DecidableEq

/-- Response of `GET /api/library/get-quiz-text`. -/
structure QuizTextResp where
  game_id : String
  text_with_blanks : Str
  total_questions : Nat
deriving DecidableEq

/-- One element of the `results` list of the library grader. -/
structure BlankResult where
  blank_index : Nat
  user_answer : Str
  correct_answer : Str
  is_correct : Bool
deriving DecidableEq

/-- Response of `POST /api/library/validate-blanks`. -/
structure LibValidateResp where
  total_score : ℤ
  results : List BlankResult
  full_text : Str
deriving DecidableEq

/-- Response of `POST /api/grammar-zone/generate-game`. -/
structure GramGenResp where
  game_id : String
  genre : Str
  sentences_to_fix : List Str
deriving DecidableEq

/-- One element of the `results` list of the grammar grader. -/
structure GrammarResult where
  original : Str
  user_correction : Str
  correct_sentence : Str
  is_correct : Bool
deriving DecidableEq

/-- Response of `POST /api/grammar-zone/submit-game`. -/
structure GramValidateResp where
  total_score : ℤ
  results : List GrammarResult
deriving DecidableEq

/-- The `results.append(...)` loop of `validate_library_blanks`, carried out
with the running index `i` (`blank_index` is `i + 1`). -/
def gradeResultsLib : Nat → List (Str × Str) → List BlankResult
  | _, [] => []
  | i, p :: rest =>
    ⟨i + 1, p.1, p.2, isAnswerCorrect p.1 p.2⟩ :: gradeResultsLib (i + 1) rest

/-- The `results.append(...)` loop of `submit_grammar_game` over
((user_correction, correct_sentence), original) triples. -/
def gradeResultsGram : List ((Str × Str) × Str) → List GrammarResult
  | [] => []
  | t :: rest =>
    ⟨t.2, t.1.1, t.1.2, isAnswerCorrect t.1.1 t.1.2⟩ :: gradeResultsGram rest

/-- `POST /api/game/generate-mission`. `mission_id` is the fresh uuid and
`ai` the provider round-trip outcome. Any exception inside the endpoint's
`try` — including the `HTTPException` raised by `call_gemini_api` — is caught
by its blanket `except Exception` and re-raised as
`HTTPException(500, "Gagal memproses permintaan AI: " + str(e))`.
On success the secret (title, questions, ideal answers) is stored under
`mission_id` and the response carries no ideal answer. -/
def generate_reading_mission (cache : Cache) (mission_id : String) (topic : Str)
    (ai : AIResult RMPayload) : Except Err RMGenResp × Cache :=
  match runAI ai with
  | .error ex => (.error ⟨500, "Gagal memproses permintaan AI: " ++ exnStr ex⟩, cache)
  | .ok d =>
    (.ok ⟨mission_id, topic, d.reading_text, d.quiz_questions⟩,
     cacheInsert cache mission_id (.reading topic d.quiz_questions d.correct_answers))

/-- `POST /api/game/validate-quiz/\x7bmission_id\x7d`. Raises 404 on an absent id;
a present session of another kind lacks the "answers" key, so the plain dict
access raises `KeyError`, surfaced by FastAPI as a bare 500. After the length
check, the prompt-building loop `for i in range(len(questions))` indexes
`correct_answers[i]` and `user_answers[i]` before the `try`, so a stored
questions list longer than the answer key raises `IndexError` — a bare 500
with the session left in the store and the AI never called. Otherwise the
grading is delegated to the AI judge (`ai`); its parsed scores are passed
through unchanged and the session is deleted only on success. -/
def validate_reading_mission_quiz (cache : Cache) (mission_id : String)
    (answers : List (Str × Str)) (ai : AIResult JudgePayload) :
    Except Err RMValidateResp × Cache :=
  match cacheGet cache mission_id with
  | none => (.error ⟨404, "Misi tidak ditemukan atau sudah kedaluwarsa."⟩, cache)
  | some (.reading title questions correct_answers) =>
    let user_answers := answers.map (fun a => a.2)
    if user_answers.length ≠ correct_answers.length then
      (.error ⟨400, "Jumlah jawaban tidak sesuai."⟩, cache)
    else if correct_answers.length < questions.length then
      (.error ⟨500, "Internal Server Error"⟩, cache)
    else
      match runAI ai with
      | .error ex => (.error ⟨500, "Gagal menilai kuis: " ++ exnStr ex⟩, cache)
      | .ok d => (.ok ⟨title, d.total_score, d.results⟩, cacheDel cache mission_id)
  | some _ => (.error ⟨500, "Internal Server Error"⟩, cache)

/-- `GET /api/hoax-quiz/generate`. On success stores the secret
(is_hoax flag, explanation, source url defaulted to "N/A") and returns only
the id and the news snippet. -/
def generate_hoax_quiz (cache : Cache) (mission_id : String)
    (ai : AIResult HoaxPayload) : Except Err HoaxGenResp × Cache :=
  match runAI ai with
  | .error ex => (.error ⟨500, "Gagal membuat kuis Hoax: " ++ exnStr ex⟩, cache)
  | .ok d =>
    (.ok ⟨mission_id, d.news_snippet⟩,
     cacheInsert cache mission_id
       (.hoax d.is_hoax d.explanation (d.source_url.getD "N/A".toList)))

/-- `POST /api/hoax-quiz/check`. Derives the correct answer string from the
stored boolean ("hoax" when true, "fakta" when false), compares it with the
lower-cased user choice, deletes the session and returns the verdict with the
capitalized answer, explanation and source url. A present session of another
kind lacks the "is_hoax" key: `KeyError`, bare 500. -/
def check_hoax_answer (cache : Cache) (mission_id : String) (user_choice : Str) :
    Except Err HoaxCheckResp × Cache :=
  let user_choice_str := pyLower user_choice
  match cacheGet cache mission_id with
  | none => (.error ⟨404, "Kuis tidak ditemukan atau sudah kedaluwarsa."⟩, cache)
  | some (.hoax correct_answer_bool explanation source_url) =>
    let correct_answer_str : Str :=
      if correct_answer_bool then "hoax".toList else "fakta".toList
    let is_correct := user_choice_str == correct_answer_str
    (.ok ⟨is_correct, pyCapitalize correct_answer_str, explanation, source_url⟩,
     cacheDel cache mission_id)
  | some _ => (.error ⟨500, "Internal Server Error"⟩, cache)

/-- `POST /api/library/generate-full-text`. Caps the proposed keywords at 5,
filters them through `verifiedBlanks`; if none survives, the
`HTTPException(500, "AI gagal membuat kata kunci yang valid untuk teks ini.")`
raised inside the `try` is caught by the endpoint's own `except Exception` and
re-wrapped with the endpoint prefix. On success the verified list and full
text are stored and the response carries only id, full text and title. -/
def generate_library_full_text (cache : Cache) (game_id : String)
    (fmt genre : Str) (ai : AIResult LibPayload) : Except Err LibGenResp × Cache :=
  match runAI ai with
  | .error ex => (.error ⟨500, "Gagal membuat teks Library: " ++ exnStr ex⟩, cache)
  | .ok d =>
    let vb := verifiedBlanks d.blanks (pyLower d.full_text)
    if vb.isEmpty then
      (.error ⟨500, "Gagal membuat teks Library: 500: " ++
        "AI gagal membuat kata kunci yang valid untuk teks ini."⟩, cache)
    else
      (.ok ⟨game_id, d.full_text, fmt ++ " (".toList ++ genre ++ ")".toList⟩,
       cacheInsert cache game_id (.library d.full_text vb))

/-- `GET /api/library/get-quiz-text/\x7bgame_id\x7d`. Blanks out each stored
keyword once, then compares the number of placeholder occurrences in the
result against the stored keyword count: on mismatch the session is deleted
and a 500 telling the caller to start a new game is raised; otherwise the
blanked text is returned with `total_questions` set to the keyword count and
the session is left in place. -/
def get_library_quiz_text (cache : Cache) (game_id : String) :
    Except Err QuizTextResp × Cache :=
  match cacheGet cache game_id with
  | some (.library full_text answers) =>
    let expected_blanks := answers.length
    let text_with_blanks := (blankOut answers placeholder full_text).1
    let actual_blanks_created := countOccs placeholder text_with_blanks
    if actual_blanks_created ≠ expected_blanks then
      (.error ⟨500, "Gagal membuat kuis: Terjadi ketidakcocokan kata kunci. " ++
        "Silakan coba buat game baru."⟩, cacheDel cache game_id)
    else
      (.ok ⟨game_id, text_with_blanks, answers.length⟩, cache)
  | _ => (.error ⟨404, "Game tidak ditemukan atau data tidak valid."⟩, cache)

/-- `POST /api/library/validate-blanks/\x7bgame_id\x7d`. 404 when the id is absent
or the session has no "correct_answers" key; 400 on a length mismatch with the
session left untouched; `score_per_item = 100 / len(correct_answers)` raises
`ZeroDivisionError` (bare 500) for an empty key; otherwise grade each pair
with `isAnswerCorrect`, delete the session, and return the rounded aggregate,
the per-item results and the full text. -/
def validate_library_blanks (cache : Cache) (game_id : String)
    (user_answers : List Str) : Except Err LibValidateResp × Cache :=
  match cacheGet cache game_id with
  | some (.library full_text correct_answers) =>
    if user_answers.length ≠ correct_answers.length then
      (.error ⟨400, "Jumlah jawaban tidak sesuai. Diharapkan: " ++
        toString correct_answers.length ++ ", Diterima: " ++
        toString user_answers.length⟩, cache)
    else if correct_answers.length = 0 then
      (.error ⟨500, "Internal Server Error"⟩, cache)
    else
      let score_per_item : ℚ := 100 / correct_answers.length
      let pairs := user_answers.zip correct_answers
      (.ok ⟨pyRound (scoreFold pairs score_per_item), gradeResultsLib 0 pairs,
        full_text⟩, cacheDel cache game_id)
  | _ => (.error ⟨404, "Game tidak ditemukan atau jawaban tidak valid."⟩, cache)

/-- `POST /api/grammar-zone/generate-game`. On success stores the ideal
corrected sentences together with the originals and returns only the id,
genre and the sentences to fix. -/
def generate_grammar_game (cache : Cache) (game_id : String) (genre : Str)
    (ai : AIResult GramPayload) : Except Err GramGenResp × Cache :=
  match runAI ai with
  | .error ex => (.error ⟨500, "Gagal membuat game Tata Bahasa: " ++ exnStr ex⟩, cache)
  | .ok d =>
    (.ok ⟨game_id, genre, d.sentences_to_fix⟩,
     cacheInsert cache game_id (.grammar d.correct_sentences d.sentences_to_fix))

/-- `POST /api/grammar-zone/submit-game/\x7bgame_id\x7d`. Mirrors the library
grader; additionally each result row echoes `original_sentences[i]`, so a
stored originals list shorter than the key raises `IndexError` (bare 500)
during the loop. -/
def submit_grammar_game (cache : Cache) (game_id : String)
    (user_corrections : List Str) : Except Err GramValidateResp × Cache :=
  match cacheGet cache game_id with
  | some (.grammar correct_sentences original_sentences) =>
    if user_corrections.length ≠ correct_sentences.length then
      (.error ⟨400, "Jumlah jawaban tidak sesuai."⟩, cache)
    else if correct_sentences.length = 0 then
      (.error ⟨500, "Internal Server Error"⟩, cache)
    else if original_sentences.length < correct_sentences.length then
      (.error ⟨500, "Internal Server Error"⟩, cache)
    else
      let score_per_item : ℚ := 100 / correct_sentences.length
      let pairs := user_corrections.zip correct_sentences
      (.ok ⟨pyRound (scoreFold pairs score_per_item),
        gradeResultsGram (pairs.zip original_sentences)⟩, cacheDel cache game_id)
  | _ => (.error ⟨404, "Game tidak ditemukan atau data tidak valid."⟩, cache)

/-- The HTTP status a caller observes from an endpoint result
(0 for a success). -/
def exceptErrStatus {α : Type} : Except Err α → Nat
  | .error e => e.status
  | .ok _ => 0

instance {ε α : Type} [DecidableEq ε] [DecidableEq α] : DecidableEq (Except ε α) := fun a b =>
  match a, b with
  | .ok x, .ok y => if h : x = y then isTrue (by rw [h]) else isFalse (by simp [h])
  | .error x, .error y => if h : x = y then isTrue (by rw [h]) else isFalse (by simp [h])
  | .ok _, .error _ => isFalse (by simp)
  | .error _, .ok _ => isFalse (by simp)

theorem dropTrailingWhile_eq_rdropWhile (p : Char → Bool) (s : Str) :
    dropTrailingWhile p s = List.rdropWhile p s := rfl

theorem pyStrip_idem (s : Str) : pyStrip (pyStrip s) = pyStrip s := by
  simp only [pyStrip, dropTrailingWhile_eq_rdropWhile]
  set p := Char.isWhitespace
  set u := s.dropWhile p with hu
  have hself : u.dropWhile p = u := List.dropWhile_idempotent p s
  have hpre : List.rdropWhile p u <+: u := List.rdropWhile_prefix p u
  have hdw : (List.rdropWhile p u).dropWhile p = List.rdropWhile p u := by
    rw [List.dropWhile_eq_self_iff]
    intro hl
    have h0 : 0 < u.length := lt_of_lt_of_le hl hpre.length_le
    have hhead : (List.rdropWhile p u).get ⟨0, hl⟩ = u.get ⟨0, h0⟩ := by
      simp only [List.get_eq_getElem]
      exact hpre.getElem hl
    rw [hhead]
    exact List.dropWhile_eq_self_iff.mp hself h0
  rw [hdw]
  exact List.rdropWhile_idempotent p u

theorem cleanBlankForCheck_pyStrip (b : Str) :
    cleanBlankForCheck (pyStrip b) = cleanBlankForCheck b := by
  unfold cleanBlankForCheck
  rw [pyStrip_idem]

theorem cacheGet_cacheDel_self (c : Cache) (k : String) :
    cacheGet (cacheDel c k) k = none := by
  induction c with
  | nil => rfl
  | cons p t ih =>
    by_cases h : p.1 = k
    · simp only [cacheDel, List.filter_cons, h, bne_self_eq_false]
      exact ih
    · simp [cacheDel, cacheGet, List.filter_cons, List.find?_cons, h] at ih ⊢

theorem cacheGet_cacheInsert_self (c : Cache) (k : String) (v : Session) :
    cacheGet (cacheInsert c k v) k = some v := by
  simp [cacheGet, cacheInsert, List.find?_cons]

theorem scoreFold_shift (pairs : List (Str × Str)) (w a : ℚ) :
    pairs.foldl (fun acc p => acc + (if isAnswerCorrect p.1 p.2 then w else 0)) a
      = a + (pairs.countP (fun p => isAnswerCorrect p.1 p.2) : ℚ) * w := by
  induction pairs generalizing a with
  | nil => simp
  | cons p t ih =>
    rw [List.foldl_cons, ih, List.countP_cons]
    by_cases h : isAnswerCorrect p.1 p.2
    · simp only [h, if_true, decide_True]
      push_cast
      ring
    · simp only [h, if_false, decide_False]
      push_cast
      ring

/-- The score accumulated by the grading loop is the number of correct
items times the uniform per-item weight. -/
theorem scoreFold_eq_countCorrect (user ideal : List Str) (w : ℚ) :
    scoreFold (user.zip ideal) w = (countCorrect user ideal : ℚ) * w := by
  unfold scoreFold countCorrect
  rw [scoreFold_shift]
  ring

theorem gradeResultsLib_map_correct (i : Nat) (pairs : List (Str × Str)) :
    (gradeResultsLib i pairs).map (fun r => r.is_correct)
      = pairs.map (fun p => isAnswerCorrect p.1 p.2) := by
  induction pairs generalizing i with
  | nil => rfl
  | cons p t ih => simp [gradeResultsLib, ih]

theorem gradeResultsGram_map_correct (l : List ((Str × Str) × Str)) :
    (gradeResultsGram l).map (fun r => r.is_correct)
      = l.map (fun t => isAnswerCorrect t.1.1 t.1.2) := by
  induction l with
  | nil => rfl
  | cons p t ih => simp [gradeResultsGram, ih]

/-- A keyword that no longer matches leaves the text unchanged and counts
no substitution. -/
theorem reSubnOnce_of_not_occurs (w ph t : Str) (h : occursCI w t = false) :
    reSubnOnce w ph t = (t, 0) := by
  induction t with
  | nil =>
    simp only [occursCI] at h
    simp [reSubnOnce, h]
  | cons c t ih =>
    simp only [occursCI, Bool.or_eq_false_iff] at h
    simp [reSubnOnce, h.1, ih h.2]

/-- `reSubnOnce` replaces exactly the first (leftmost) case-insensitive
literal occurrence of the keyword with the placeholder: the text splits at
the first matching index `i`, no earlier index matches, and exactly one
substitution is reported. -/
theorem reSubnOnce_spec (w ph t : Str) (h : occursCI w t = true) :
    ∃ i, ciStartsWith w (t.drop i) = true
      ∧ (∀ j, j < i → ciStartsWith w (t.drop j) = false)
      ∧ reSubnOnce w ph t = (t.take i ++ ph ++ t.drop (i + w.length), 1) := by
  induction t with
  | nil =>
    simp only [occursCI] at h
    exact ⟨0, by simpa using h, fun j hj => by omega, by simp [reSubnOnce, h]⟩
  | cons c t ih =>
    by_cases hc : ciStartsWith w (c :: t) = true
    · refine ⟨0, hc, fun j hj => by omega, ?_⟩
      simp [reSubnOnce, hc]
    · have hcf : ciStartsWith w (c :: t) = false := by
        simpa using hc
      have h' : occursCI w t = true := by
        simpa [occursCI, hcf] using h
      obtain ⟨i, h1, h2, h3⟩ := ih h'
      refine ⟨i + 1, by simpa using h1, ?_, ?_⟩
      · intro j hj
        cases j with
        | zero => simpa using hcf
        | succ j => simpa using h2 j (by omega)
      · simp only [reSubnOnce, hcf, Bool.false_eq_true, if_false, h3]
        simp [List.take_succ_cons, List.drop_succ_cons, Nat.add_right_comm]

theorem blankOut_nil (ph t : Str) : blankOut [] ph t = (t, 0) := rfl

theorem blankOut_foldl_shift (kws : List Str) (ph t : Str) (n : Nat) :
    kws.foldl
      (fun acc word =>
        let tc := reSubnOnce word ph acc.1
        if tc.2 > 0 then (tc.1, acc.2 + 1) else (acc.1, acc.2)) (t, n)
      = ((blankOut kws ph t).1, n + (blankOut kws ph t).2) := by
  induction kws generalizing t n with
  | nil => simp [blankOut]
  | cons w rest ih =>
    simp only [blankOut, List.foldl_cons]
    by_cases h : (reSubnOnce w ph t).2 > 0
    · simp only [h, if_true, ih, Prod.mk.injEq]
      exact ⟨trivial, by omega⟩
    · simp only [h, if_false, ih, Prod.mk.injEq]
      exact ⟨trivial, by omega⟩

/-- The blanking loop processes the keyword list in order: the head keyword
is substituted (at most once) when it matches, and merely skipped — the loop
continuing with the unchanged text and count — when it does not. -/
theorem blankOut_cons (w : Str) (rest : List Str) (ph t : Str) :
    blankOut (w :: rest) ph t
      = if (reSubnOnce w ph t).2 > 0 then
          ((blankOut rest ph (reSubnOnce w ph t).1).1,
           (blankOut rest ph (reSubnOnce w ph t).1).2 + 1)
        else blankOut rest ph t := by
  by_cases h : (reSubnOnce w ph t).2 > 0
  · simp only [h, if_true, blankOut, List.foldl_cons]
    rw [blankOut_foldl_shift]
    simp only [blankOut, Prod.mk.injEq]
    exact ⟨trivial, by omega⟩
  · simp only [h, if_false, blankOut, List.foldl_cons]

/-- Each keyword contributes at most one substitution, so the loop's
`blanks_created` never exceeds the number of keywords. -/
theorem blankOut_count_le (kws : List Str) (ph t : Str) :
    (blankOut kws ph t).2 ≤ kws.length := by
  induction kws generalizing t with
  | nil => simp [blankOut]
  | cons w rest ih =>
    rw [blankOut_cons]
    by_cases h : (reSubnOnce w ph t).2 > 0
    · simp only [h, if_true, List.length_cons]
      have := ih (reSubnOnce w ph t).1
      omega
    · simp only [h, if_false, List.length_cons]
      have := ih t
      omega

theorem verifiedBlanks_foldl_shift (bs : List Str) (ftl : Str) (acc : List Str) :
    bs.foldl (fun acc b => if acceptBlank ftl b then acc ++ [pyStrip b] else acc) acc
      = acc ++ (bs.filter (acceptBlank ftl)).map pyStrip := by
  induction bs generalizing acc with
  | nil => simp
  | cons b t ih =>
    by_cases h : acceptBlank ftl b
    · simp [h, ih, List.filter_cons]
    · simp [h, ih, List.filter_cons]

/-- Closed form of the keyword-verification loop: of the first 5 proposed
keywords, exactly those passing the substring check survive, each stored in
its stripped original form, in proposal order. -/
theorem verifiedBlanks_eq (blanks : List Str) (ftl : Str) :
    verifiedBlanks blanks ftl
      = ((blanks.take 5).filter (acceptBlank ftl)).map pyStrip := by
  unfold verifiedBlanks
  rw [verifiedBlanks_foldl_shift]
  simp

/-- C9: on an existing hoax session, `check_hoax_answer` derives "hoax" from
a stored `is_hoax = true` and "fakta" from `false`, reports `is_correct`
exactly when the lower-cased user choice equals that derived string, returns
the capitalized derived string ("Hoax"/"Fakta") together with the stored
explanation and source url, and deletes the session. -/
theorem c9_hoax_check_behavior (cache : Cache) (mid : String) (b : Bool)
    (expl src choice : Str)
    (h : cacheGet cache mid = some (.hoax b expl src)) :
    check_hoax_answer cache mid choice
      = (.ok ⟨pyLower choice == (if b then "hoax".toList else "fakta".toList),
              pyCapitalize (if b then "hoax".toList else "fakta".toList),
              expl, src⟩,
         cacheDel cache mid)
    ∧ pyCapitalize (if b then "hoax".toList else "fakta".toList)
        = (if b then "Hoax".toList else "Fakta".toList)
    ∧ ((pyLower choice == (if b then "hoax".toList else "fakta".toList)) = true
        ↔ pyLower choice = (if b then "hoax".toList else "fakta".toList))
    ∧ cacheGet (cacheDel cache mid) mid = none := by
  refine ⟨?_, ?_, ?_, cacheGet_cacheDel_self cache mid⟩
  · cases b <;> simp [check_hoax_answer, h]
  · cases b <;> decide
  · exact beq_iff_eq

/-- C9 witness: a concrete true-hoax session checked with choice "hOAX". -/
theorem c9_hoax_check_behavior_witness :
    check_hoax_answer [("m", Session.hoax true "e".toList "u".toList)] "m" "hOAX".toList
      = (.ok ⟨true, "Hoax".toList, "e".toList, "u".toList⟩, []) :=
  (c9_hoax_check_behavior [("m", Session.hoax true "e".toList "u".toList)] "m" true
    "e".toList "u".toList "hOAX".toList (by decide)).1.trans (by decide)

/-- C1: on an existing library session, `get_library_quiz_text` substitutes
every stored keyword and counts the placeholder occurrences in the result; if
that count differs from the stored keyword count the session is deleted and a
distinguishable 500 failure tells the caller to start a new game, otherwise
the blanked text is returned with `total_questions` equal to the stored
keyword count and exactly that many placeholder occurrences. -/
theorem c1_blank_consistency (cache : Cache) (gid : String) (ft : Str)
    (ans : List Str) (h : cacheGet cache gid = some (.library ft ans)) :
    (countOccs placeholder (blankOut ans placeholder ft).1 ≠ ans.length →
      get_library_quiz_text cache gid
        = (.error ⟨500, "Gagal membuat kuis: Terjadi ketidakcocokan kata kunci. " ++
            "Silakan coba buat game baru."⟩, cacheDel cache gid)
      ∧ cacheGet (cacheDel cache gid) gid = none)
    ∧ (countOccs placeholder (blankOut ans placeholder ft).1 = ans.length →
      ∃ resp, get_library_quiz_text cache gid = (.ok resp, cache)
        ∧ resp.total_questions = ans.length
        ∧ countOccs placeholder resp.text_with_blanks = resp.total_questions) := by
  constructor
  · intro hne
    exact ⟨by simp [get_library_quiz_text, h, hne], cacheGet_cacheDel_self cache gid⟩
  · intro heq
    refine ⟨⟨gid, (blankOut ans placeholder ft).1, ans.length⟩, ?_, rfl, heq⟩
    simp [get_library_quiz_text, h, heq]

/-- C1 witness: a session whose single keyword blanks consistently. -/
theorem c1_blank_consistency_witness :
    ∃ resp,
      get_library_quiz_text [("g", Session.library "Halo dunia".toList ["dunia".toList])] "g"
        = (.ok resp, [("g", Session.library "Halo dunia".toList ["dunia".toList])])
      ∧ resp.total_questions = 1
      ∧ countOccs placeholder resp.text_with_blanks = resp.total_questions :=
  (c1_blank_consistency [("g", Session.library "Halo dunia".toList ["dunia".toList])] "g"
    "Halo dunia".toList ["dunia".toList] (by decide)).2 (by decide)

/-- C5: only the first 5 AI-proposed keywords are considered; a keyword
enters the verified list exactly when `acceptBlank` holds of it — i.e. its
trimmed, lower-cased form with a trailing run of `. , ? !` stripped is a
non-empty substring of the lower-cased full text — and it is stored in
trimmed form; rejected keywords are merely dropped, and generation still
succeeds as long as some keyword survives. -/
theorem c5_keyword_filtering (blanks : List Str) (ftl : Str) :
    verifiedBlanks blanks ftl = ((blanks.take 5).filter (acceptBlank ftl)).map pyStrip
    ∧ (∀ x, x ∈ verifiedBlanks blanks ftl
        ↔ ∃ b, b ∈ blanks.take 5 ∧ acceptBlank ftl b = true ∧ x = pyStrip b)
    ∧ (∀ (cache : Cache) (gid : String) (fmt genre ft : Str),
        verifiedBlanks blanks (pyLower ft) ≠ [] →
        ∃ resp cache2,
          generate_library_full_text cache gid fmt genre (.parsed ⟨ft, blanks⟩)
            = (.ok resp, cache2)) := by
  refine ⟨verifiedBlanks_eq blanks ftl, ?_, ?_⟩
  · intro x
    rw [verifiedBlanks_eq]
    simp only [List.mem_map, List.mem_filter]
    constructor
    · rintro ⟨b, ⟨hb5, hacc⟩, hx⟩
      exact ⟨b, hb5, hacc, hx.symm⟩
    · rintro ⟨b, hb5, hacc, hx⟩
      exact ⟨b, ⟨hb5, hacc⟩, hx.symm⟩
  · intro cache gid fmt genre ft hne
    have hempty : (verifiedBlanks blanks (pyLower ft)).isEmpty = false := by
      cases hvb : verifiedBlanks blanks (pyLower ft) with
      | nil => exact absurd hvb hne
      | cons a l => rfl
    refine ⟨⟨gid, ft, fmt ++ " (".toList ++ genre ++ ")".toList⟩,
      cacheInsert cache gid (.library ft (verifiedBlanks blanks (pyLower ft))), ?_⟩
    simp [generate_library_full_text, runAI, hempty]

/-- C5 witness: of two proposed keywords only the punctuation-carrying
"Dunia," survives against the text "Halo dunia", and generation succeeds. -/
theorem c5_keyword_filtering_witness :
    ∃ resp cache2,
      generate_library_full_text [] "g" "Cerpen".toList "Fantasy".toList
          (.parsed ⟨"Halo dunia".toList, ["Dunia,".toList, "zzz".toList]⟩)
        = (.ok resp, cache2) :=
  (c5_keyword_filtering ["Dunia,".toList, "zzz".toList] []).2.2
    [] "g" "Cerpen".toList "Fantasy".toList "Halo dunia".toList (by decide)

/-- C10: a successful library generation stores, under the fresh id, a
library session whose verified keyword list is non-empty, has at most 5
entries, and whose every entry, after trimming, lower-casing and stripping
trailing punctuation, occurs in the stored full text; when no proposed
keyword survives verification, generation fails with an error and the store
is unchanged. -/
theorem c10_library_session_invariant (cache : Cache) (gid : String)
    (fmt genre ft : Str) (blanks : List Str) :
    (∀ resp cache2,
      generate_library_full_text cache gid fmt genre (.parsed ⟨ft, blanks⟩)
          = (.ok resp, cache2) →
      ∃ kws, cacheGet cache2 gid = some (.library ft kws)
        ∧ kws ≠ []
        ∧ kws.length ≤ 5
        ∧ ∀ kw ∈ kws, cleanBlankForCheck kw ≠ []
            ∧ strContains (pyLower ft) (cleanBlankForCheck kw) = true)
    ∧ (verifiedBlanks blanks (pyLower ft) = [] →
      generate_library_full_text cache gid fmt genre (.parsed ⟨ft, blanks⟩)
        = (.error ⟨500, "Gagal membuat teks Library: 500: " ++
            "AI gagal membuat kata kunci yang valid untuk teks ini."⟩, cache)) := by
  constructor
  · intro resp cache2 hEq
    by_cases hempty : (verifiedBlanks blanks (pyLower ft)).isEmpty
    · simp [generate_library_full_text, runAI, hempty] at hEq
    · rw [Bool.not_eq_true] at hempty
      simp only [generate_library_full_text, runAI, hempty, Bool.false_eq_true, if_false,
        Prod.mk.injEq, Except.ok.injEq] at hEq
      refine ⟨verifiedBlanks blanks (pyLower ft), ?_, ?_, ?_, ?_⟩
      · rw [← hEq.2]
        exact cacheGet_cacheInsert_self cache gid _
      · intro hnil
        rw [hnil] at hempty
        simp at hempty
      · rw [verifiedBlanks_eq, List.length_map]
        calc ((blanks.take 5).filter (acceptBlank (pyLower ft))).length
            ≤ (blanks.take 5).length := List.length_filter_le _ _
          _ ≤ 5 := List.length_take_le 5 blanks
      · intro kw hkw
        rw [verifiedBlanks_eq] at hkw
        obtain ⟨b, hbmem, hbeq⟩ := List.mem_map.mp hkw
        obtain ⟨_, hacc⟩ := List.mem_filter.mp hbmem
        unfold acceptBlank at hacc
        rw [Bool.and_eq_true] at hacc
        obtain ⟨hne, hsub⟩ := hacc
        rw [← hbeq, cleanBlankForCheck_pyStrip]
        refine ⟨?_, hsub⟩
        intro hnil
        rw [Bool.not_eq_eq_eq_not, Bool.not_true] at hne
        rw [hnil] at hne
        simp at hne
  · intro hvb
    have hempty : (verifiedBlanks blanks (pyLower ft)).isEmpty = true := by
      rw [hvb]; rfl
    simp [generate_library_full_text, runAI, hempty]

/-- C10 witness: a concrete successful generation whose stored session
satisfies the invariant. -/
theorem c10_library_session_invariant_witness :
    ∃ kws,
      cacheGet [("g", Session.library "Halo dunia".toList ["Dunia,".toList])] "g"
          = some (Session.library "Halo dunia".toList kws)
        ∧ kws ≠ []
        ∧ kws.length ≤ 5
        ∧ ∀ kw ∈ kws, cleanBlankForCheck kw ≠ []
            ∧ strContains (pyLower "Halo dunia".toList) (cleanBlankForCheck kw) = true :=
  (c10_library_session_invariant [] "g" "A".toList "B".toList "Halo dunia".toList
      [" Dunia,".toList]).1
    ⟨"g", "Halo dunia".toList, "A (B)".toList⟩
    [("g", Session.library "Halo dunia".toList ["Dunia,".toList])]
    (by decide)

theorem overload_detail_eq (pfx msg : String) :
    pfx ++ exnStr (.http ⟨503,
        "Server AI sedang sibuk (Overloaded). Coba lagi dalam beberapa saat. Detail: " ++ msg⟩)
      = pfx ++
        "503: Server AI sedang sibuk (Overloaded). Coba lagi dalam beberapa saat. Detail: "
        ++ msg := by
  show pfx ++ (toString (503 : Nat) ++ ": " ++
      ("Server AI sedang sibuk (Overloaded). Coba lagi dalam beberapa saat. Detail: " ++ msg))
    = _
  rw [← String.append_assoc (toString (503 : Nat) ++ ": ")]
  rw [show (toString (503 : Nat) ++ ": " ++
      "Server AI sedang sibuk (Overloaded). Coba lagi dalam beberapa saat. Detail: " : String)
    = "503: Server AI sedang sibuk (Overloaded). Coba lagi dalam beberapa saat. Detail: "
    from by decide]
  rw [String.append_assoc]

/-- C7 (amended): when the provider answers HTTP 503 during any generate
call, `call_gemini_api` raises the Overloaded `HTTPException(503, ...)`, but
the endpoint's blanket `except Exception` catches it and re-raises status
500 with the 503 Overloaded text (including the provider detail) embedded in
the detail string; no session is created and the store is unchanged. -/
theorem c7_overloaded_wrapped_as_500 (cache : Cache) (gid : String)
    (topic fmt genre : Str) (msg : String) :
    (generate_reading_mission cache gid topic (.httpError 503 msg)
      = (.error ⟨500, "Gagal memproses permintaan AI: " ++
          "503: Server AI sedang sibuk (Overloaded). Coba lagi dalam beberapa saat. Detail: "
          ++ msg⟩, cache))
    ∧ (generate_hoax_quiz cache gid (.httpError 503 msg)
      = (.error ⟨500, "Gagal membuat kuis Hoax: " ++
          "503: Server AI sedang sibuk (Overloaded). Coba lagi dalam beberapa saat. Detail: "
          ++ msg⟩, cache))
    ∧ (generate_library_full_text cache gid fmt genre (.httpError 503 msg)
      = (.error ⟨500, "Gagal membuat teks Library: " ++
          "503: Server AI sedang sibuk (Overloaded). Coba lagi dalam beberapa saat. Detail: "
          ++ msg⟩, cache))
    ∧ (generate_grammar_game cache gid genre (.httpError 503 msg)
      = (.error ⟨500, "Gagal membuat game Tata Bahasa: " ++
          "503: Server AI sedang sibuk (Overloaded). Coba lagi dalam beberapa saat. Detail: "
          ++ msg⟩, cache)) := by
  refine ⟨?_, ?_, ?_, ?_⟩
  · simp only [generate_reading_mission, runAI, if_pos rfl, if_true]
    rw [← overload_detail_eq]
  · simp only [generate_hoax_quiz, runAI, if_pos rfl, if_true]
    rw [← overload_detail_eq]
  · simp only [generate_library_full_text, runAI, if_pos rfl, if_true]
    rw [← overload_detail_eq]
  · simp only [generate_grammar_game, runAI, if_pos rfl, if_true]
    rw [← overload_detail_eq]

/-- C7 counterexample: at a concrete 503 provider failure the caller's
observed status is 500 — not 503 as the claim states — with the Overloaded
text only embedded inside the detail string. -/
theorem c7_counterexample_status_is_500_not_503 :
    generate_reading_mission [] "m" "t".toList (.httpError 503 "busy")
      = (.error ⟨500, "Gagal memproses permintaan AI: 503: Server AI sedang sibuk (Overloaded). Coba lagi dalam beberapa saat. Detail: busy"⟩, [])
    ∧ exceptErrStatus (generate_reading_mission [] "m" "t".toList (.httpError 503 "busy")).1
        = 500
    ∧ (500 : Nat) ≠ 503 :=
  ⟨by decide, by decide, by decide⟩

/-- C8: the public payload of every successful generate call is a function
of the non-secret content only — two provider payloads differing exactly in
the secret answer key (ideal answers, is-hoax flag with explanation and
source, proposed keywords, corrected sentences) produce identical responses,
so no secret field occurs in the response. -/
theorem c8_generate_omits_secret :
    (∀ (cache : Cache) (gid : String) (topic rt : Str) (qs a1 a2 : List Str),
      (generate_reading_mission cache gid topic (.parsed ⟨rt, qs, a1⟩)).1
        = (generate_reading_mission cache gid topic (.parsed ⟨rt, qs, a2⟩)).1)
    ∧ (∀ (cache : Cache) (gid : String) (ns e1 e2 : Str) (b1 b2 : Bool)
        (u1 u2 : Option Str),
      (generate_hoax_quiz cache gid (.parsed ⟨ns, b1, e1, u1⟩)).1
        = (generate_hoax_quiz cache gid (.parsed ⟨ns, b2, e2, u2⟩)).1)
    ∧ (∀ (cache : Cache) (gid : String) (fmt genre ft : Str) (b1 b2 : List Str),
      verifiedBlanks b1 (pyLower ft) ≠ [] → verifiedBlanks b2 (pyLower ft) ≠ [] →
      (generate_library_full_text cache gid fmt genre (.parsed ⟨ft, b1⟩)).1
        = (generate_library_full_text cache gid fmt genre (.parsed ⟨ft, b2⟩)).1)
    ∧ (∀ (cache : Cache) (gid : String) (genre : Str) (stf c1 c2 : List Str),
      (generate_grammar_game cache gid genre (.parsed ⟨stf, c1⟩)).1
        = (generate_grammar_game cache gid genre (.parsed ⟨stf, c2⟩)).1) := by
  refine ⟨fun _ _ _ _ _ _ _ => rfl, fun _ _ _ _ _ _ _ _ _ => rfl, ?_,
    fun _ _ _ _ _ _ => rfl⟩
  intro cache gid fmt genre ft b1 b2 h1 h2
  have e1 : (verifiedBlanks b1 (pyLower ft)).isEmpty = false := by
    cases hvb : verifiedBlanks b1 (pyLower ft) with
    | nil => exact absurd hvb h1
    | cons a l => rfl
  have e2 : (verifiedBlanks b2 (pyLower ft)).isEmpty = false := by
    cases hvb : verifiedBlanks b2 (pyLower ft) with
    | nil => exact absurd hvb h2
    | cons a l => rfl
  simp [generate_library_full_text, runAI, e1, e2]

/-- C8 witness: two library generations over the same text with different
surviving keywords return the same public response. -/
theorem c8_generate_omits_secret_witness :
    (generate_library_full_text [] "g" "F".toList "G".toList
        (.parsed ⟨"Halo dunia".toList, ["dunia".toList]⟩)).1
      = (generate_library_full_text [] "g" "F".toList "G".toList
        (.parsed ⟨"Halo dunia".toList, ["halo".toList]⟩)).1 :=
  c8_generate_omits_secret.2.2.1 [] "g" "F".toList "G".toList "Halo dunia".toList
    ["dunia".toList] ["halo".toList] (by decide) (by decide)

/-- C4: the blanking loop walks the stored keywords in order; for each it
performs at most one case-insensitive replacement of the literal keyword
(the `re.escape`d pattern) by the placeholder — replacing exactly the first
occurrence, at an index before which no match exists — counts one per
keyword actually replaced (never more than the number of keywords), and a
keyword that no longer matches is skipped with text and count unchanged
rather than aborting the loop. -/
theorem c4_blanking_loop (ph text w : Str) (kws : List Str) :
    (occursCI w text = false →
      reSubnOnce w ph text = (text, 0)
      ∧ blankOut (w :: kws) ph text = blankOut kws ph text)
    ∧ (occursCI w text = true →
      ∃ i, ciStartsWith w (text.drop i) = true
        ∧ (∀ j, j < i → ciStartsWith w (text.drop j) = false)
        ∧ reSubnOnce w ph text = (text.take i ++ ph ++ text.drop (i + w.length), 1)
        ∧ blankOut (w :: kws) ph text
            = ((blankOut kws ph (text.take i ++ ph ++ text.drop (i + w.length))).1,
               (blankOut kws ph (text.take i ++ ph ++ text.drop (i + w.length))).2 + 1))
    ∧ (blankOut kws ph text).2 ≤ kws.length := by
  refine ⟨?_, ?_, blankOut_count_le kws ph text⟩
  · intro hno
    have hre := reSubnOnce_of_not_occurs w ph text hno
    refine ⟨hre, ?_⟩
    rw [blankOut_cons, hre]
    simp
  · intro hyes
    obtain ⟨i, h1, h2, h3⟩ := reSubnOnce_spec w ph text hyes
    refine ⟨i, h1, h2, h3, ?_⟩
    rw [blankOut_cons, h3]
    simp

/-- C4 witness: the keyword "kupu" matches "si Kupu terbang"
case-insensitively first at index 3, is replaced exactly once there, and the
loop then continues with the remaining keywords. -/
theorem c4_blanking_loop_witness :
    ∃ i, ciStartsWith "kupu".toList ("si Kupu terbang".toList.drop i) = true
      ∧ (∀ j, j < i → ciStartsWith "kupu".toList ("si Kupu terbang".toList.drop j) = false)
      ∧ reSubnOnce "kupu".toList placeholder "si Kupu terbang".toList
          = ("si Kupu terbang".toList.take i ++ placeholder ++
             "si Kupu terbang".toList.drop (i + "kupu".toList.length), 1)
      ∧ blankOut ("kupu".toList :: ["zzz".toList]) placeholder "si Kupu terbang".toList
          = ((blankOut ["zzz".toList] placeholder
               ("si Kupu terbang".toList.take i ++ placeholder ++
                "si Kupu terbang".toList.drop (i + "kupu".toList.length))).1,
             (blankOut ["zzz".toList] placeholder
               ("si Kupu terbang".toList.take i ++ placeholder ++
                "si Kupu terbang".toList.drop (i + "kupu".toList.length))).2 + 1) :=
  (c4_blanking_loop placeholder "si Kupu terbang".toList "kupu".toList
    ["zzz".toList]).2.1 (by decide)

/-- C3: for both exact-match graders (library blanks and grammar fix), with
an existing session and equal-length submission, item i is correct exactly
when the submitted string, trimmed and lower-cased, equals the ideal string
under the same normalization; the returned total is the count of correct
items times the uniform weight 100/len, rounded to an integer once on the
aggregate; the session is deleted. -/
theorem c3_uniform_grading :
    (∀ (cache : Cache) (gid : String) (ft : Str) (ideal user : List Str),
      cacheGet cache gid = some (.library ft ideal) →
      user.length = ideal.length → 0 < ideal.length →
      ∃ results,
        validate_library_blanks cache gid user
          = (.ok ⟨pyRound ((countCorrect user ideal : ℚ) * (100 / ideal.length)),
                  results, ft⟩, cacheDel cache gid)
        ∧ results.map (fun r => r.is_correct)
            = (user.zip ideal).map (fun p => isAnswerCorrect p.1 p.2))
    ∧ (∀ (cache : Cache) (gid : String) (cs os user : List Str),
      cacheGet cache gid = some (.grammar cs os) →
      user.length = cs.length → 0 < cs.length → cs.length ≤ os.length →
      ∃ results,
        submit_grammar_game cache gid user
          = (.ok ⟨pyRound ((countCorrect user cs : ℚ) * (100 / cs.length)),
                  results⟩, cacheDel cache gid)
        ∧ results.map (fun r => r.is_correct)
            = (user.zip cs).map (fun p => isAnswerCorrect p.1 p.2)) := by
  constructor
  · intro cache gid ft ideal user h hlen hpos
    refine ⟨gradeResultsLib 0 (user.zip ideal), ?_, gradeResultsLib_map_correct 0 _⟩
    simp only [validate_library_blanks, h]
    rw [if_neg (by omega : ¬user.length ≠ ideal.length)]
    rw [if_neg (by omega : ¬ideal.length = 0)]
    rw [scoreFold_eq_countCorrect]
  · intro cache gid cs os user h hlen hpos hos
    refine ⟨gradeResultsGram ((user.zip cs).zip os), ?_, ?_⟩
    · simp only [submit_grammar_game, h]
      rw [if_neg (by omega : ¬user.length ≠ cs.length)]
      rw [if_neg (by omega : ¬cs.length = 0)]
      rw [if_neg (by omega : ¬os.length < cs.length)]
      rw [scoreFold_eq_countCorrect]
    · rw [gradeResultsGram_map_correct]
      have hzlen : ((user.zip cs).zip os).length = (user.zip cs).length := by
        rw [List.length_zip, List.length_zip]
        omega
      calc ((user.zip cs).zip os).map (fun t => isAnswerCorrect t.1.1 t.1.2)
          = (((user.zip cs).zip os).map Prod.fst).map (fun p => isAnswerCorrect p.1 p.2) := by
            rw [List.map_map]; rfl
        _ = (user.zip cs).map (fun p => isAnswerCorrect p.1 p.2) := by
            rw [List.map_fst_zip]
            rw [List.length_zip]
            omega

/-- C3 witness: the claim's concrete scenario — ideal
["Jakarta","1945","Soekarno"] against ["jakarta","1945 ","soekarno"] marks
all three items correct with total score 100. -/
theorem c3_uniform_grading_witness :
    ∃ results,
      validate_library_blanks
          [("g", Session.library "x".toList
            ["Jakarta".toList, "1945".toList, "Soekarno".toList])] "g"
          ["jakarta".toList, "1945 ".toList, "soekarno".toList]
        = (.ok ⟨100, results, "x".toList⟩, [])
      ∧ results.map (fun r => r.is_correct) = [true, true, true] := by
  obtain ⟨r, h1, h2⟩ := c3_uniform_grading.1
    [("g", Session.library "x".toList
      ["Jakarta".toList, "1945".toList, "Soekarno".toList])]
    "g" "x".toList ["Jakarta".toList, "1945".toList, "Soekarno".toList]
    ["jakarta".toList, "1945 ".toList, "soekarno".toList]
    (by decide) (by decide) (by decide)
  refine ⟨r, ?_, ?_⟩
  · rw [h1]
    with_unfolding_all rfl
  · rw [h2]
    decide

/-- C6: for every list-submission game kind, a submission whose length
differs from the stored answer-key length fails with a 400 bad-input error
and leaves the session untouched, so a subsequent correctly-sized submission
against the same id still succeeds (for the reading mission, with the judged
scores passed through). -/
theorem c6_length_mismatch_retry :
    (∀ (cache : Cache) (gid : String) (ft : Str) (ca ua : List Str),
      cacheGet cache gid = some (.library ft ca) →
      ua.length ≠ ca.length →
      validate_library_blanks cache gid ua
        = (.error ⟨400, "Jumlah jawaban tidak sesuai. Diharapkan: " ++
            toString ca.length ++ ", Diterima: " ++ toString ua.length⟩, cache)
      ∧ ∀ ua2 : List Str, ua2.length = ca.length → 0 < ca.length →
          ∃ r, validate_library_blanks cache gid ua2 = (.ok r, cacheDel cache gid))
    ∧ (∀ (cache : Cache) (gid : String) (cs os uc : List Str),
      cacheGet cache gid = some (.grammar cs os) →
      uc.length ≠ cs.length →
      submit_grammar_game cache gid uc
        = (.error ⟨400, "Jumlah jawaban tidak sesuai."⟩, cache)
      ∧ ∀ uc2 : List Str, uc2.length = cs.length → 0 < cs.length →
          cs.length ≤ os.length →
          ∃ r, submit_grammar_game cache gid uc2 = (.ok r, cacheDel cache gid))
    ∧ (∀ (cache : Cache) (gid : String) (title : Str) (qs ak : List Str)
        (ans : List (Str × Str)) (ai : AIResult JudgePayload),
      cacheGet cache gid = some (.reading title qs ak) →
      (ans.map (fun a => a.2)).length ≠ ak.length →
      validate_reading_mission_quiz cache gid ans ai
        = (.error ⟨400, "Jumlah jawaban tidak sesuai."⟩, cache)
      ∧ ∀ (ans2 : List (Str × Str)) (jp : JudgePayload),
          (ans2.map (fun a => a.2)).length = ak.length →
          qs.length ≤ ak.length →
          validate_reading_mission_quiz cache gid ans2 (.parsed jp)
            = (.ok ⟨title, jp.total_score, jp.results⟩, cacheDel cache gid)) := by
  refine ⟨?_, ?_, ?_⟩
  · intro cache gid ft ca ua h hne
    constructor
    · simp only [validate_library_blanks, h]
      rw [if_pos hne]
    · intro ua2 hlen hpos
      refine ⟨⟨pyRound (scoreFold (ua2.zip ca) (100 / ca.length)),
        gradeResultsLib 0 (ua2.zip ca), ft⟩, ?_⟩
      simp only [validate_library_blanks, h]
      rw [if_neg (by omega : ¬ua2.length ≠ ca.length)]
      rw [if_neg (by omega : ¬ca.length = 0)]
  · intro cache gid cs os uc h hne
    constructor
    · simp only [submit_grammar_game, h]
      rw [if_pos hne]
    · intro uc2 hlen hpos hos
      refine ⟨⟨pyRound (scoreFold (uc2.zip cs) (100 / cs.length)),
        gradeResultsGram ((uc2.zip cs).zip os)⟩, ?_⟩
      simp only [submit_grammar_game, h]
      rw [if_neg (by omega : ¬uc2.length ≠ cs.length)]
      rw [if_neg (by omega : ¬cs.length = 0)]
      rw [if_neg (by omega : ¬os.length < cs.length)]
  · intro cache gid title qs ak ans ai h hne
    constructor
    · simp only [validate_reading_mission_quiz, h]
      rw [if_pos hne]
    · intro ans2 jp hlen hqs
      simp only [validate_reading_mission_quiz, h, runAI]
      rw [if_neg (by omega : ¬(ans2.map (fun a => a.2)).length ≠ ak.length)]
      rw [if_neg (by omega : ¬ak.length < qs.length)]

/-- C6 witness: a 2-element submission against a 1-keyword library session
fails with 400 and the session survives; the 1-element resubmission
succeeds. -/
theorem c6_length_mismatch_retry_witness :
    (validate_library_blanks [("g", Session.library "t".toList ["a".toList])] "g"
        ["x".toList, "y".toList]
      = (.error ⟨400, "Jumlah jawaban tidak sesuai. Diharapkan: 1, Diterima: 2"⟩,
         [("g", Session.library "t".toList ["a".toList])]))
    ∧ ∃ r, validate_library_blanks [("g", Session.library "t".toList ["a".toList])] "g"
        ["a".toList] = (.ok r, []) := by
  obtain ⟨h1, h2⟩ := c6_length_mismatch_retry.1
    [("g", Session.library "t".toList ["a".toList])] "g" "t".toList
    ["a".toList] ["x".toList, "y".toList] (by decide) (by decide)
  constructor
  · rw [h1]
    decide
  · obtain ⟨r, hr⟩ := h2 ["a".toList] (by decide) (by decide)
    exact ⟨r, hr.trans (by with_unfolding_all rfl)⟩

theorem validate_library_blanks_ok_deletes (cache c2 : Cache) (gid : String)
    (ua : List Str) (r : LibValidateResp)
    (h : validate_library_blanks cache gid ua = (.ok r, c2)) :
    c2 = cacheDel cache gid := by
  cases hget : cacheGet cache gid with
  | none => simp [validate_library_blanks, hget] at h
  | some s =>
    cases s with
    | library ft ca =>
      simp only [validate_library_blanks, hget] at h
      by_cases h1 : ua.length ≠ ca.length
      · rw [if_pos h1] at h
        simp at h
      · rw [if_neg h1] at h
        by_cases h2 : ca.length = 0
        · rw [if_pos h2] at h
          simp at h
        · rw [if_neg h2] at h
          have := congrArg Prod.snd h
          simpa using this.symm
    | reading a b c => simp [validate_library_blanks, hget] at h
    | hoax a b c => simp [validate_library_blanks, hget] at h
    | grammar a b => simp [validate_library_blanks, hget] at h

theorem check_hoax_answer_ok_deletes (cache c2 : Cache) (gid : String)
    (choice : Str) (r : HoaxCheckResp)
    (h : check_hoax_answer cache gid choice = (.ok r, c2)) :
    c2 = cacheDel cache gid := by
  cases hget : cacheGet cache gid with
  | none => simp [check_hoax_answer, hget] at h
  | some s =>
    cases s with
    | hoax b e u =>
      simp only [check_hoax_answer, hget] at h
      have := congrArg Prod.snd h
      simpa using this.symm
    | reading a b c => simp [check_hoax_answer, hget] at h
    | library a b => simp [check_hoax_answer, hget] at h
    | grammar a b => simp [check_hoax_answer, hget] at h

theorem submit_grammar_game_ok_deletes (cache c2 : Cache) (gid : String)
    (uc : List Str) (r : GramValidateResp)
    (h : submit_grammar_game cache gid uc = (.ok r, c2)) :
    c2 = cacheDel cache gid := by
  cases hget : cacheGet cache gid with
  | none => simp [submit_grammar_game, hget] at h
  | some s =>
    cases s with
    | grammar cs os =>
      simp only [submit_grammar_game, hget] at h
      by_cases h1 : uc.length ≠ cs.length
      · rw [if_pos h1] at h
        simp at h
      · rw [if_neg h1] at h
        by_cases h2 : cs.length = 0
        · rw [if_pos h2] at h
          simp at h
        · rw [if_neg h2] at h
          by_cases h3 : os.length < cs.length
          · rw [if_pos h3] at h
            simp at h
          · rw [if_neg h3] at h
            have := congrArg Prod.snd h
            simpa using this.symm
    | reading a b c => simp [submit_grammar_game, hget] at h
    | hoax a b c => simp [submit_grammar_game, hget] at h
    | library a b => simp [submit_grammar_game, hget] at h

theorem validate_reading_mission_quiz_ok_deletes (cache c2 : Cache) (gid : String)
    (ans : List (Str × Str)) (ai : AIResult JudgePayload) (r : RMValidateResp)
    (h : validate_reading_mission_quiz cache gid ans ai = (.ok r, c2)) :
    c2 = cacheDel cache gid := by
  cases hget : cacheGet cache gid with
  | none => simp [validate_reading_mission_quiz, hget] at h
  | some s =>
    cases s with
    | reading title qs ak =>
      simp only [validate_reading_mission_quiz, hget] at h
      by_cases h1 : (ans.map (fun a => a.2)).length ≠ ak.length
      · rw [if_pos h1] at h
        simp at h
      · rw [if_neg h1] at h
        by_cases h2 : ak.length < qs.length
        · rw [if_pos h2] at h
          simp at h
        · rw [if_neg h2] at h
          cases hai : runAI ai with
          | error ex =>
            rw [hai] at h
            simp at h
          | ok d =>
            rw [hai] at h
            have := congrArg Prod.snd h
            simpa using this.symm
    | hoax a b c => simp [validate_reading_mission_quiz, hget] at h
    | library a b => simp [validate_reading_mission_quiz, hget] at h
    | grammar a b => simp [validate_reading_mission_quiz, hget] at h

theorem get_library_quiz_text_fatal_deletes (cache c2 : Cache) (gid : String)
    (e : Err) (h : get_library_quiz_text cache gid = (.error e, c2))
    (hs : e.status = 500) : c2 = cacheDel cache gid := by
  cases hget : cacheGet cache gid with
  | none =>
    simp only [get_library_quiz_text, hget, Prod.mk.injEq, Except.error.injEq] at h
    rw [← h.1] at hs
    simp at hs
  | some s =>
    cases s with
    | library ft ans =>
      simp only [get_library_quiz_text, hget] at h
      by_cases hc : countOccs placeholder (blankOut ans placeholder ft).1 ≠ ans.length
      · rw [if_pos hc] at h
        have := congrArg Prod.snd h
        simpa using this.symm
      · rw [if_neg hc] at h
        simp at h
    | reading a b c =>
      simp only [get_library_quiz_text, hget, Prod.mk.injEq, Except.error.injEq] at h
      rw [← h.1] at hs
      simp at hs
    | hoax a b c =>
      simp only [get_library_quiz_text, hget, Prod.mk.injEq, Except.error.injEq] at h
      rw [← h.1] at hs
      simp at hs
    | grammar a b =>
      simp only [get_library_quiz_text, hget, Prod.mk.injEq, Except.error.injEq] at h
      rw [← h.1] at hs
      simp at hs

/-- C2: after any validate/check call that succeeds — or the LibraryBlanks
fatal blank-inconsistency deletion (the only 500-status error path of
`get_library_quiz_text`) — the session id is gone from the store, so every
subsequent validate/check or get-quiz-text call with that id fails with its
404 not-found error and leaves the store unchanged. -/
theorem c2_single_use_sessions (cache cache2 : Cache) (gid : String)
    (h : (∃ ua r, validate_library_blanks cache gid ua = (.ok r, cache2))
      ∨ (∃ choice r, check_hoax_answer cache gid choice = (.ok r, cache2))
      ∨ (∃ uc r, submit_grammar_game cache gid uc = (.ok r, cache2))
      ∨ (∃ ans ai r, validate_reading_mission_quiz cache gid ans ai = (.ok r, cache2))
      ∨ (∃ e, get_library_quiz_text cache gid = (.error e, cache2) ∧ e.status = 500)) :
    cacheGet cache2 gid = none
    ∧ (∀ ua, validate_library_blanks cache2 gid ua
        = (.error ⟨404, "Game tidak ditemukan atau jawaban tidak valid."⟩, cache2))
    ∧ (∀ choice, check_hoax_answer cache2 gid choice
        = (.error ⟨404, "Kuis tidak ditemukan atau sudah kedaluwarsa."⟩, cache2))
    ∧ (∀ uc, submit_grammar_game cache2 gid uc
        = (.error ⟨404, "Game tidak ditemukan atau data tidak valid."⟩, cache2))
    ∧ (∀ ans ai, validate_reading_mission_quiz cache2 gid ans ai
        = (.error ⟨404, "Misi tidak ditemukan atau sudah kedaluwarsa."⟩, cache2))
    ∧ get_library_quiz_text cache2 gid
        = (.error ⟨404, "Game tidak ditemukan atau data tidak valid."⟩, cache2) := by
  have hdel : cache2 = cacheDel cache gid := by
    rcases h with ⟨ua, r, hh⟩ | ⟨choice, r, hh⟩ | ⟨uc, r, hh⟩ | ⟨ans, ai, r, hh⟩
      | ⟨e, hh, hs⟩
    · exact validate_library_blanks_ok_deletes cache cache2 gid ua r hh
    · exact check_hoax_answer_ok_deletes cache cache2 gid choice r hh
    · exact submit_grammar_game_ok_deletes cache cache2 gid uc r hh
    · exact validate_reading_mission_quiz_ok_deletes cache cache2 gid ans ai r hh
    · exact get_library_quiz_text_fatal_deletes cache cache2 gid e hh hs
  have hnone : cacheGet cache2 gid = none := by
    rw [hdel]
    exact cacheGet_cacheDel_self cache gid
  refine ⟨hnone, ?_, ?_, ?_, ?_, ?_⟩
  · intro ua
    simp [validate_library_blanks, hnone]
  · intro choice
    simp [check_hoax_answer, hnone]
  · intro uc
    simp [submit_grammar_game, hnone]
  · intro ans ai
    simp [validate_reading_mission_quiz, hnone]
  · simp [get_library_quiz_text, hnone]

/-- C2 witness: after a successful hoax check consumes its session, every
further call against the same id answers 404 without changing the (empty)
store. -/
theorem c2_single_use_sessions_witness :
    cacheGet ([] : Cache) "m" = none
    ∧ validate_library_blanks [] "m" ["a".toList]
        = (.error ⟨404, "Game tidak ditemukan atau jawaban tidak valid."⟩, [])
    ∧ check_hoax_answer [] "m" "hoax".toList
        = (.error ⟨404, "Kuis tidak ditemukan atau sudah kedaluwarsa."⟩, [])
    ∧ submit_grammar_game [] "m" ["a".toList]
        = (.error ⟨404, "Game tidak ditemukan atau data tidak valid."⟩, [])
    ∧ validate_reading_mission_quiz [] "m" [] (.malformed "x")
        = (.error ⟨404, "Misi tidak ditemukan atau sudah kedaluwarsa."⟩, [])
    ∧ get_library_quiz_text [] "m"
        = (.error ⟨404, "Game tidak ditemukan atau data tidak valid."⟩, []) := by
  obtain ⟨h0, h1, h2, h3, h4, h5⟩ :=
    c2_single_use_sessions [("m", Session.hoax true "e".toList "u".toList)] [] "m"
      (Or.inr (Or.inl ⟨"hoax".toList,
        ⟨true, "Hoax".toList, "e".toList, "u".toList⟩, by decide⟩))
  exact ⟨h0, h1 ["a".toList], h2 "hoax".toList, h3 ["a".toList],
    h4 [] (.malformed "x"), h5⟩
